import Mathlib

/-!
Shallow embedding of the vibede file-change filtering and repository-type
detection pipeline.

The definitions below are transcribed from the TypeScript sources:
  * `src/lib/filters/directoryFilter.ts`  (normalizePath, isInIgnoredDirectory)
  * pattern filter (globToRegex, matchesIgnoredPattern)
  * `src/lib/filters/eventTypeFilter.ts`  (normalizeEventType, isAllowedEventType)
  * `src/lib/filters/extensionFilter.ts`  (getFileExtension, matchesExtensionFilter)
  * debounce filter (createDebounceKey, shouldDebounceEvent)
  * `src/lib/filters/combinedFilter.ts`   (applyAllFilters)
  * filter config store (DEFAULT_FILTER_CONFIG, REPO_TYPE_PRESETS,
    loadFilterConfig, applyRepoTypePreset, toggleFilter)
  * repo type detector (REPO_TYPE_SIGNATURES, detectRepoType)

Modelling conventions: JavaScript strings are Lean `String`s (lists of
characters); `String.toLowerCase` is modelled character-wise by
`Char.toLower` (identical on the ASCII names used throughout the sources);
`Date.now()` timestamps and `timeWindowMs` are `Int` (JS numbers, with JS
subtraction); a JS `Map` is an insertion-ordered association list where
`set` overwrites in place; the mutation performed by `shouldDebounceEvent`
is made explicit by returning the updated map alongside the boolean.
-/

/-- A file change event as delivered by the watcher backend
(`src/types/fileWatcher.ts`). -/
structure FileChangeEvent where
  path : String
  kind : String
  watch_id : String
  deriving DecidableEq

/-- Configuration of the pattern filter stage. -/
structure PatternFilterConfig where
  enabled : Bool
  ignoredPatterns : List String
  deriving DecidableEq

/-- Configuration of the directory filter stage. -/
structure DirectoryFilterConfig where
  enabled : Bool
  ignoredDirectories : List String
  deriving DecidableEq

/-- Configuration of the event type filter stage. -/
structure EventTypeFilterConfig where
  enabled : Bool
  allowedTypes : List String
  deriving DecidableEq

/-- Mode of the extension filter: `'include' | 'exclude'`. -/
inductive ExtensionMode where
  | includeMode
  | excludeMode
  deriving DecidableEq

/-- Configuration of the extension filter stage. -/
structure ExtensionFilterConfig where
  enabled : Bool
  watchedExtensions : List String
  mode : ExtensionMode
  deriving DecidableEq

/-- Configuration of the debounce filter stage. -/
structure DebounceFilterConfig where
  enabled : Bool
  timeWindowMs : Int
  deriving DecidableEq

/-- Closed enumeration of repository types, in declaration order of the
TypeScript union `RepoType`. -/
inductive RepoType where
  | javascript
  | typescript
  | python
  | java
  | csharp
  | cpp
  | go
  | rust
  | php
  | ruby
  | generic
  deriving DecidableEq

/-- Aggregate filter configuration (`FilterConfig` in
`src/types/fileWatcher.ts`); `activePreset` is the optional field. -/
structure FilterConfig where
  patterns : PatternFilterConfig
  directories : DirectoryFilterConfig
  eventTypes : EventTypeFilterConfig
  extensions : ExtensionFilterConfig
  debounce : DebounceFilterConfig
  activePreset : Option RepoType := none
  deriving DecidableEq

/-- Identifiers of the five filter stages (`FilterType`). -/
inductive FilterType where
  | patterns
  | directories
  | eventTypes
  | extensions
  | debounce
  deriving DecidableEq

/-- An entry of the debounce map (`RecentChange`). -/
structure RecentChange where
  timestamp : Int
  event : FileChangeEvent
  deriving DecidableEq

/-- The debounce state: a JS `Map<string, RecentChange>` modelled as an
insertion-ordered association list. -/
abbrev DebounceMap := List (String × RecentChange)

/-- Lookup in the debounce map (`Map.get`). -/
def mapGet (m : DebounceMap) (k : String) : Option RecentChange :=
  (m.find? (fun p => p.1 == k)).map (fun p => p.2)

/-- Update of the debounce map (`Map.set`): overwrite the existing entry in
place, or append a new one. -/
def mapSet (m : DebounceMap) (k : String) (v : RecentChange) : DebounceMap :=
  if m.any (fun p => p.1 == k) then
    m.map (fun p => if p.1 == k then (k, v) else p)
  else
    m ++ [(k, v)]

/-- Character-wise lower-casing, modelling `String.prototype.toLowerCase`
on the ASCII identifiers used by the sources. -/
def strLower (s : String) : String :=
  String.mk (s.data.map Char.toLower)

/-- The substring after the last `/`, modelling `path.split('/').pop() || ''`. -/
def baseName (p : String) : String :=
  String.mk ((p.data.reverse.takeWhile (fun c => !(c == '/'))).reverse)

/-- Boolean string-prefix test (used to model `String.prototype.startsWith`). -/
def chStarts : List Char → List Char → Bool
  | _, [] => true
  | [], _ :: _ => false
  | c :: cs, p :: ps => c == p && chStarts cs ps

/-- Whether `s` starts with `pre` (`s.startsWith(pre)` in the source). -/
def strStartsWith (s pre : String) : Bool :=
  chStarts s.data pre.data

/-- Path normalization from `directoryFilter.ts`: replace every backslash
with a forward slash, then strip one trailing slash if present. -/
def normalizePath (path : String) : String :=
  let replaced := path.data.map (fun c => if c == '\\' then '/' else c)
  if replaced.getLast? == some '/' then String.mk replaced.dropLast
  else String.mk replaced

/-- Directory containment check from `directoryFilter.ts`: a path is in an
ignored directory when it equals the normalized directory or starts with it
followed by a slash. -/
def isInIgnoredDirectory (filePath : String) (config : DirectoryFilterConfig) : Bool :=
  if !config.enabled || config.ignoredDirectories.isEmpty then false
  else
    let normalizedPath := normalizePath filePath
    config.ignoredDirectories.any (fun dir =>
      let normalizedDir := normalizePath dir
      if normalizedPath == normalizedDir then true
      else if strStartsWith normalizedPath (normalizedDir ++ "/") then true
      else false)

/-- Default ignored directories (`DEFAULT_IGNORED_DIRECTORIES`). -/
def DEFAULT_IGNORED_DIRECTORIES : List String :=
  ["node_modules", ".git", "dist", "build", "out", ".next", "coverage",
   ".cache", "tmp", "temp"]

/-- An atom of the regular expression built by `globToRegex`: after escaping
every metacharacter except `*` and `?`, the regex source is a sequence of
literal characters, `.` (from `?`) and `.*` (from `*`). -/
inductive RAtom where
  | lit (c : Char)
  | dot
  | star
  deriving DecidableEq

/-- Translation of a glob pattern into the regex built by `globToRegex`:
regex metacharacters are escaped (hence literal), `*` becomes `.*` and `?`
becomes `.`; the result is anchored with `^...$`. -/
def globToRegex (pattern : String) : List RAtom :=
  pattern.data.map (fun c =>
    if c == '*' then RAtom.star
    else if c == '?' then RAtom.dot
    else RAtom.lit c)

/-- Anchored matching semantics of the regex produced by `globToRegex`
(`RegExp.prototype.test` on the `^...$`-anchored regex): `.*` matches when
some suffix of the input matches the remainder. -/
def regexAccepts : List RAtom → List Char → Bool
  | [], s => s.isEmpty
  | RAtom.lit _ :: _, [] => false
  | RAtom.lit c :: rs, n :: ns => c == n && regexAccepts rs ns
  | RAtom.dot :: _, [] => false
  | RAtom.dot :: rs, _ :: ns => regexAccepts rs ns
  | RAtom.star :: rs, s => s.tails.any (fun suf => regexAccepts rs suf)

/-- Pattern filter from the source: when enabled with a non-empty pattern
list, the base name is tested against each glob pattern. -/
def matchesIgnoredPattern (filePath : String) (config : PatternFilterConfig) : Bool :=
  if !config.enabled || config.ignoredPatterns.isEmpty then false
  else
    let fileName := baseName filePath
    config.ignoredPatterns.any (fun pattern =>
      regexAccepts (globToRegex pattern) fileName.data)

/-- Default ignored patterns (`DEFAULT_IGNORED_PATTERNS`). -/
def DEFAULT_IGNORED_PATTERNS : List String :=
  ["*.tmp", "*.log", ".DS_Store", "Thumbs.db", "*~", "*.swp", "*.bak", "*.cache"]

/-- Synonym table of `normalizeEventType` (`eventTypeFilter.ts`), as an
association list in the declaration order of the object literal. -/
def eventTypeMap : List (String × String) :=
  [("create", "created"), ("add", "created"), ("added", "created"), ("new", "created"),
   ("modify", "modified"), ("change", "modified"), ("changed", "modified"),
   ("update", "modified"), ("updated", "modified"),
   ("delete", "removed"), ("remove", "removed"), ("deleted", "removed"),
   ("unlink", "removed"),
   ("rename", "renamed"), ("moved", "renamed"), ("move", "renamed"),
   ("access", "accessed"), ("accessed", "accessed")]

/-- Event kind normalization: lower-case, then map known synonyms to one of
the five canonical kinds, leaving unknown kinds lower-cased. -/
def normalizeEventType (eventType : String) : String :=
  let lowerType := strLower eventType
  match eventTypeMap.find? (fun p => p.1 == lowerType) with
  | some p => p.2
  | none => lowerType

/-- Event type filter: disabled or empty allow-list passes everything,
otherwise membership of the normalized kind. -/
def isAllowedEventType (eventType : String) (config : EventTypeFilterConfig) : Bool :=
  if !config.enabled then true
  else if config.allowedTypes.isEmpty then true
  else config.allowedTypes.contains (normalizeEventType eventType)

/-- Default allowed event types (`DEFAULT_ALLOWED_EVENT_TYPES`). -/
def DEFAULT_ALLOWED_EVENT_TYPES : List String :=
  ["created", "modified", "removed"]

/-- File extension extraction from `extensionFilter.ts`: the substring of
the base name from its last dot onward, lower-cased; empty when the base
name has no dot or the dot is its first character. -/
def getFileExtension (filePath : String) : String :=
  let fileName := (baseName filePath).data
  let afterDot := fileName.reverse.takeWhile (fun c => !(c == '.'))
  if afterDot.length + 1 < fileName.length then
    String.mk (('.' :: afterDot.reverse).map Char.toLower)
  else ""

/-- Extension filter: disabled or empty list passes everything; a file
without extension passes only in exclude mode; otherwise membership of the
extension decides, direct in include mode and negated in exclude mode. -/
def matchesExtensionFilter (filePath : String) (config : ExtensionFilterConfig) : Bool :=
  if !config.enabled then true
  else if config.watchedExtensions.isEmpty then true
  else
    let extension := getFileExtension filePath
    if extension.isEmpty then
      match config.mode with
      | ExtensionMode.excludeMode => true
      | ExtensionMode.includeMode => false
    else
      let extensionMatches := config.watchedExtensions.contains extension
      match config.mode with
      | ExtensionMode.includeMode => extensionMatches
      | ExtensionMode.excludeMode => !extensionMatches

/-- Default watched extensions (`DEFAULT_WATCHED_EXTENSIONS`). -/
def DEFAULT_WATCHED_EXTENSIONS : List String :=
  [".js", ".jsx", ".ts", ".tsx", ".html", ".css", ".scss", ".json", ".md",
   ".yaml", ".yml"]

/-- Debounce key: `path + ":" + kind`. -/
def createDebounceKey (event : FileChangeEvent) : String :=
  event.path ++ ":" ++ event.kind

/-- Debounce check from the source, with the mutation of the recent-changes
map made explicit in the second component: disabled leaves the map alone
and never suppresses; a fresh entry within the time window suppresses
without touching the map; otherwise the entry is recorded with the current
timestamp and the event passes. -/
def shouldDebounceEvent (event : FileChangeEvent) (recentChanges : DebounceMap)
    (config : DebounceFilterConfig) (now : Int) : Bool × DebounceMap :=
  if !config.enabled then (false, recentChanges)
  else
    let key := createDebounceKey event
    match mapGet recentChanges key with
    | some lastChange =>
      if now - lastChange.timestamp < config.timeWindowMs then (true, recentChanges)
      else (false, mapSet recentChanges key ⟨now, event⟩)
    | none => (false, mapSet recentChanges key ⟨now, event⟩)

/-- Default debounce time window in milliseconds. -/
def DEFAULT_DEBOUNCE_TIME_MS : Int := 300

/-- Combined filter pipeline from `combinedFilter.ts`: pattern, directory,
event type and extension checks in order, each rejection short-circuiting,
then the debounce check; the returned map is the (possibly updated)
recent-changes map. -/
def applyAllFilters (event : FileChangeEvent) (config : FilterConfig)
    (recentChanges : DebounceMap) (now : Int) : Bool × DebounceMap :=
  if matchesIgnoredPattern event.path config.patterns then (false, recentChanges)
  else if isInIgnoredDirectory event.path config.directories then (false, recentChanges)
  else if !isAllowedEventType event.kind config.eventTypes then (false, recentChanges)
  else if !matchesExtensionFilter event.path config.extensions then (false, recentChanges)
  else
    let r := shouldDebounceEvent event recentChanges config.debounce now
    if r.1 then (false, r.2) else (true, r.2)

/-- Default filter configuration (`DEFAULT_FILTER_CONFIG` in the config
store): only the directory stage is enabled by default. -/
def DEFAULT_FILTER_CONFIG : FilterConfig where
  patterns := ⟨false, DEFAULT_IGNORED_PATTERNS⟩
  directories := ⟨true, DEFAULT_IGNORED_DIRECTORIES⟩
  eventTypes := ⟨false, DEFAULT_ALLOWED_EVENT_TYPES⟩
  extensions := ⟨false, DEFAULT_WATCHED_EXTENSIONS, ExtensionMode.includeMode⟩
  debounce := ⟨false, DEFAULT_DEBOUNCE_TIME_MS⟩
  activePreset := none

/-- A `Partial<FilterConfig>`: each stage is optionally present; a present
stage is a complete stage config (as in every entry of `REPO_TYPE_PRESETS`). -/
structure PartialFilterConfig where
  patterns : Option PatternFilterConfig := none
  directories : Option DirectoryFilterConfig := none
  eventTypes : Option EventTypeFilterConfig := none
  extensions : Option ExtensionFilterConfig := none
  debounce : Option DebounceFilterConfig := none
  deriving DecidableEq

/-- Repository type presets (`REPO_TYPE_PRESETS`), transcribed entry by
entry; `generic` maps to the full default configuration. -/
def REPO_TYPE_PRESETS : RepoType → PartialFilterConfig
  | RepoType.javascript =>
    { directories := some ⟨true, ["node_modules", "dist", "build", "coverage", ".cache"]⟩,
      extensions := some ⟨true, [".js", ".jsx", ".json", ".html", ".css", ".scss"],
        ExtensionMode.includeMode⟩ }
  | RepoType.typescript =>
    { directories := some ⟨true, ["node_modules", "dist", "build", "coverage", ".cache"]⟩,
      extensions := some ⟨true, [".ts", ".tsx", ".js", ".jsx", ".json", ".html", ".css", ".scss"],
        ExtensionMode.includeMode⟩ }
  | RepoType.python =>
    { directories := some ⟨true, ["__pycache__", ".venv", "venv", "dist", "build", ".pytest_cache"]⟩,
      extensions := some ⟨true, [".py", ".ipynb", ".json", ".yml", ".yaml"],
        ExtensionMode.includeMode⟩ }
  | RepoType.java =>
    { directories := some ⟨true, ["target", "build", ".gradle", "out", "bin"]⟩,
      extensions := some ⟨true, [".java", ".kt", ".xml", ".properties", ".gradle"],
        ExtensionMode.includeMode⟩ }
  | RepoType.csharp =>
    { directories := some ⟨true, ["bin", "obj", "packages", ".vs"]⟩,
      extensions := some ⟨true, [".cs", ".csproj", ".sln", ".xaml", ".config", ".json"],
        ExtensionMode.includeMode⟩ }
  | RepoType.cpp =>
    { directories := some ⟨true, ["build", "bin", "lib", "obj", ".vs"]⟩,
      extensions := some ⟨true, [".c", ".cpp", ".h", ".hpp", ".cc", ".cxx", ".cmake", ".txt"],
        ExtensionMode.includeMode⟩ }
  | RepoType.go =>
    { directories := some ⟨true, ["vendor", "bin", "pkg"]⟩,
      extensions := some ⟨true, [".go", ".mod", ".sum", ".proto"],
        ExtensionMode.includeMode⟩ }
  | RepoType.rust =>
    { directories := some ⟨true, ["target", "dist", "build"]⟩,
      extensions := some ⟨true, [".rs", ".toml", ".lock"],
        ExtensionMode.includeMode⟩ }
  | RepoType.php =>
    { directories := some ⟨true, ["vendor", "node_modules", "public/build", "storage"]⟩,
      extensions := some ⟨true, [".php", ".blade.php", ".twig", ".json", ".yml"],
        ExtensionMode.includeMode⟩ }
  | RepoType.ruby =>
    { directories := some ⟨true, ["vendor", "tmp", "log", "public/assets"]⟩,
      extensions := some ⟨true, [".rb", ".erb", ".rake", ".yml", ".json"],
        ExtensionMode.includeMode⟩ }
  | RepoType.generic =>
    { patterns := some DEFAULT_FILTER_CONFIG.patterns,
      directories := some DEFAULT_FILTER_CONFIG.directories,
      eventTypes := some DEFAULT_FILTER_CONFIG.eventTypes,
      extensions := some DEFAULT_FILTER_CONFIG.extensions,
      debounce := some DEFAULT_FILTER_CONFIG.debounce }

/-- Configuration loading (`loadFilterConfig`): the stored value (if any)
is parsed, and on a missing value, an empty string (falsy in the source's
truthiness check) or a parse failure the default configuration is returned;
the function is total, so no exception ever propagates. `parse` models
`JSON.parse` followed by the cast to `FilterConfig`. -/
def loadFilterConfig (stored : Option String)
    (parse : String → Except String FilterConfig) : FilterConfig :=
  match stored with
  | none => DEFAULT_FILTER_CONFIG
  | some savedConfig =>
    if savedConfig.isEmpty then DEFAULT_FILTER_CONFIG
    else
      match parse savedConfig with
      | Except.ok config => config
      | Except.error _ => DEFAULT_FILTER_CONFIG

/-- Preset application (`applyRepoTypePreset`): each stage present in the
preset replaces the corresponding stage of (a deep copy of) the current
configuration, one stage at a time as in the source, and `activePreset` is
set to the applied type. -/
def applyRepoTypePreset (config : FilterConfig) (repoType : RepoType) : FilterConfig :=
  let preset := REPO_TYPE_PRESETS repoType
  let c1 := match preset.patterns with
    | some p => { config with patterns := p }
    | none => config
  let c2 := match preset.directories with
    | some d => { c1 with directories := d }
    | none => c1
  let c3 := match preset.eventTypes with
    | some e => { c2 with eventTypes := e }
    | none => c2
  let c4 := match preset.extensions with
    | some e => { c3 with extensions := e }
    | none => c3
  let c5 := match preset.debounce with
    | some d => { c4 with debounce := d }
    | none => c4
  { c5 with activePreset := some repoType }

/-- Stage toggling (`toggleFilter`): rebuild the configuration with the
named stage's `enabled` flag replaced. -/
def toggleFilter (config : FilterConfig) (filterType : FilterType)
    (enabled : Bool) : FilterConfig :=
  match filterType with
  | FilterType.patterns =>
    { config with patterns := { config.patterns with enabled := enabled } }
  | FilterType.directories =>
    { config with directories := { config.directories with enabled := enabled } }
  | FilterType.eventTypes =>
    { config with eventTypes := { config.eventTypes with enabled := enabled } }
  | FilterType.extensions =>
    { config with extensions := { config.extensions with enabled := enabled } }
  | FilterType.debounce =>
    { config with debounce := { config.debounce with enabled := enabled } }

/-- Fingerprint of a repository type (`RepoTypeSignature`). -/
structure RepoTypeSignature where
  files : List String
  directories : List String
  deriving DecidableEq

/-- Signature table (`REPO_TYPE_SIGNATURES`), transcribed entry by entry. -/
def REPO_TYPE_SIGNATURES : RepoType → RepoTypeSignature
  | RepoType.javascript =>
    ⟨["package.json", "package-lock.json", "yarn.lock", "node_modules"], ["node_modules"]⟩
  | RepoType.typescript =>
    ⟨["tsconfig.json", "package.json", "node_modules"], ["node_modules"]⟩
  | RepoType.python =>
    ⟨["requirements.txt", "setup.py", "pyproject.toml", "Pipfile"], ["__pycache__", ".venv", "venv"]⟩
  | RepoType.java =>
    ⟨["pom.xml", "build.gradle", "gradlew", ".classpath"], ["target", "build", ".gradle"]⟩
  | RepoType.csharp =>
    ⟨[".sln", ".csproj", "packages.config"], ["bin", "obj", "packages"]⟩
  | RepoType.cpp =>
    ⟨["CMakeLists.txt", "Makefile", ".vcxproj"], ["build", "bin", "lib"]⟩
  | RepoType.go =>
    ⟨["go.mod", "go.sum", "main.go"], ["vendor", "pkg"]⟩
  | RepoType.rust =>
    ⟨["Cargo.toml", "Cargo.lock"], ["target", "src"]⟩
  | RepoType.php =>
    ⟨["composer.json", "composer.lock", "artisan"], ["vendor", "app"]⟩
  | RepoType.ruby =>
    ⟨["Gemfile", "Rakefile", "config.ru"], ["vendor", "lib", "app"]⟩
  | RepoType.generic => ⟨[], []⟩

/-- Iteration order of `Object.entries` over the signature and score
records: the declaration order of the `RepoType` keys. -/
def repoTypeOrder : List RepoType :=
  [RepoType.javascript, RepoType.typescript, RepoType.python, RepoType.java,
   RepoType.csharp, RepoType.cpp, RepoType.go, RepoType.rust, RepoType.php,
   RepoType.ruby, RepoType.generic]

/-- Score of one repository type: one point per signature file name found
among the normalized file entries, plus one per signature directory name
found among the normalized directory entries. -/
def repoScore (normalizedFiles normalizedDirs : List String) (repoType : RepoType) : Nat :=
  let signature := REPO_TYPE_SIGNATURES repoType
  signature.files.countP (fun file => normalizedFiles.contains (strLower file)) +
    signature.directories.countP (fun dir => normalizedDirs.contains (strLower dir))

/-- Repository type detection (`detectRepoType`): normalize the entries to
lower-cased base names, score every type, pick the first type (in
declaration order) whose score strictly exceeds the running maximum
(starting from `generic` at 0), then apply the TypeScript/JavaScript
special case. -/
def detectRepoType (filesPresent directoriesPresent : List String) : RepoType :=
  let normalizedFiles := filesPresent.map (fun f => baseName (strLower f))
  let normalizedDirs := directoriesPresent.map (fun d => baseName (strLower d))
  let score := repoScore normalizedFiles normalizedDirs
  let best := repoTypeOrder.foldl
    (fun acc repoType =>
      if acc.2 < score repoType then (repoType, score repoType) else acc)
    (RepoType.generic, 0)
  if score RepoType.javascript == score RepoType.typescript
      && 0 < score RepoType.typescript
      && normalizedFiles.contains "tsconfig.json" then
    RepoType.typescript
  else best.1

/-- Maximum score over all repository types. -/
def maxRepoScore (score : RepoType → Nat) : Nat :=
  (repoTypeOrder.map score).foldr max 0

/-- Specification-level restatement of the detector, following the amended
claim: the TypeScript/JavaScript special rule takes precedence; otherwise,
when every score is zero the result is `generic`, and when some score is
positive, the result is the first type in declaration order attaining the
maximum score. -/
def detectRepoTypeSpec (filesPresent directoriesPresent : List String) : RepoType :=
  let normalizedFiles := filesPresent.map (fun f => baseName (strLower f))
  let normalizedDirs := directoriesPresent.map (fun d => baseName (strLower d))
  let score := repoScore normalizedFiles normalizedDirs
  if score RepoType.javascript == score RepoType.typescript
      && 0 < score RepoType.typescript
      && normalizedFiles.contains "tsconfig.json" then
    RepoType.typescript
  else if maxRepoScore score = 0 then RepoType.generic
  else (repoTypeOrder.find? (fun t => score t == maxRepoScore score)).getD RepoType.generic

/-- Technical lemma: the value of `foldr max 0` over the mapped list is
either zero or attained by some list element. -/
theorem foldrMax_attained {α : Type} (f : α → Nat) (l : List α) :
    (l.map f).foldr max 0 = 0 ∨ ∃ t, t ∈ l ∧ f t = (l.map f).foldr max 0 := by
  induction l with
  | nil => exact Or.inl rfl
  | cons x xs ih =>
    simp only [List.map_cons, List.foldr_cons]
    rcases ih with h | ⟨t, htmem, hft⟩
    · by_cases hfx : f x = 0
      · left
        simp [h, hfx]
      · right
        exact ⟨x, List.mem_cons_self x xs, by simp [h]⟩
    · by_cases hle : f x ≤ (xs.map f).foldr max 0
      · exact Or.inr ⟨t, List.mem_cons_of_mem x htmem, by rw [max_eq_right hle, hft]⟩
      · exact Or.inr ⟨x, List.mem_cons_self x xs,
          by rw [max_eq_left (le_of_not_le hle)]⟩

/-- Characterization of the best-match fold of `detectRepoType`: it
returns the unchanged accumulator when no score exceeds the initial bound,
and otherwise the first element attaining the maximum score together with
that maximum. -/
theorem foldBest_eq {α : Type} (f : α → Nat) (l : List α) :
    ∀ (b : α) (s : Nat),
      l.foldl (fun acc t => if acc.2 < f t then (t, f t) else acc) (b, s)
        = if (l.map f).foldr max 0 ≤ s then (b, s)
          else ((l.find? (fun t => f t == (l.map f).foldr max 0)).getD b,
                (l.map f).foldr max 0) := by
  induction l with
  | nil =>
    intro b s
    simp
  | cons x xs ih =>
    intro b s
    simp only [List.foldl_cons, List.map_cons, List.foldr_cons]
    by_cases hx : s < f x
    · rw [if_pos hx, ih]
      have hns : ¬ max (f x) ((xs.map f).foldr max 0) ≤ s :=
        fun h => absurd (le_trans (le_max_left _ _) h) (not_le.mpr hx)
      rw [if_neg hns]
      by_cases hM : (xs.map f).foldr max 0 ≤ f x
      · rw [if_pos hM, max_eq_left hM]
        simp
      · have hlt : f x < (xs.map f).foldr max 0 := not_le.mp hM
        rw [if_neg hM, max_eq_right (le_of_lt hlt)]
        rw [@List.find?_cons_of_neg _ (fun t => f t == (xs.map f).foldr max 0) x xs
          (by simp [Nat.ne_of_lt hlt])]
        rcases foldrMax_attained f xs with h0 | ⟨t, htmem, hft⟩
        · omega
        · have hsome : (xs.find? (fun t => f t == (xs.map f).foldr max 0)).isSome :=
            List.find?_isSome.mpr ⟨t, htmem, by simp [hft]⟩
          obtain ⟨y, hy⟩ := Option.isSome_iff_exists.mp hsome
          rw [hy, Option.getD_some, Option.getD_some]
    · rw [if_neg hx, ih]
      have hxs : f x ≤ s := not_lt.mp hx
      by_cases hM : (xs.map f).foldr max 0 ≤ s
      · rw [if_pos hM, if_pos (max_le hxs hM)]
      · have hsM : s < (xs.map f).foldr max 0 := not_le.mp hM
        have hns : ¬ max (f x) ((xs.map f).foldr max 0) ≤ s :=
          fun h => hM (le_trans (le_max_right _ _) h)
        rw [if_neg hM, if_neg hns, max_eq_right (le_trans hxs (le_of_lt hsM))]
        rw [@List.find?_cons_of_neg _ (fun t => f t == (xs.map f).foldr max 0) x xs
          (by simp
              omega)]

/-- Equivalence of the implemented detector with its specification-level
restatement. -/
theorem detectRepoType_eq (filesPresent directoriesPresent : List String) :
    detectRepoType filesPresent directoriesPresent
      = detectRepoTypeSpec filesPresent directoriesPresent := by
  unfold detectRepoType detectRepoTypeSpec maxRepoScore
  set score := repoScore (filesPresent.map (fun f => baseName (strLower f)))
    (directoriesPresent.map (fun d => baseName (strLower d))) with hscore
  by_cases hC :
      (score RepoType.javascript == score RepoType.typescript
        && decide (0 < score RepoType.typescript)
        && (filesPresent.map (fun f => baseName (strLower f))).contains "tsconfig.json") = true
  · simp only [hC, if_true]
  · simp only [hC, if_false, Bool.false_eq_true]
    rw [foldBest_eq]
    by_cases hM : (repoTypeOrder.map score).foldr max 0 = 0
    · simp [hM]
    · rw [if_neg (show ¬ (repoTypeOrder.map score).foldr max 0 ≤ 0 from by omega),
        if_neg hM]

/-- Claim C1 (counterexample): on the file entries `["tsconfig.json",
"yarn.lock", "requirements.txt", "setup.py", "pyproject.toml"]`, the
python score (3) strictly exceeds the typescript score (1), yet
`detectRepoType` returns `typescript` because the TypeScript/JavaScript
special rule overrides the best match unconditionally — so the detector
does not always return the type with the strictly highest score. -/
theorem detectRepoType_not_highest_score :
    detectRepoType
        ["tsconfig.json", "yarn.lock", "requirements.txt", "setup.py", "pyproject.toml"] []
      = RepoType.typescript
    ∧ repoScore
        (["tsconfig.json", "yarn.lock", "requirements.txt", "setup.py",
          "pyproject.toml"].map (fun f => baseName (strLower f)))
        (([] : List String).map (fun d => baseName (strLower d)))
        RepoType.typescript
      < repoScore
        (["tsconfig.json", "yarn.lock", "requirements.txt", "setup.py",
          "pyproject.toml"].map (fun f => baseName (strLower f)))
        (([] : List String).map (fun d => baseName (strLower d)))
        RepoType.python := by
  constructor
  · decide
  · decide

/-- Claim C1 (amended): `detectRepoType` scores each type by adding one per
signature file name present (case-insensitively) and one per signature
directory name present, and returns: `typescript` whenever the javascript
and typescript scores are equal and positive and `tsconfig.json` is among
the file entries — this special rule takes precedence over the
highest-score rule; otherwise `generic` when no type scores above zero;
otherwise the first-declared type attaining the strictly highest score.
The four listed examples evaluate accordingly. -/
theorem detectRepoType_spec_correct :
    (∀ filesPresent directoriesPresent : List String,
        detectRepoType filesPresent directoriesPresent
          = detectRepoTypeSpec filesPresent directoriesPresent)
    ∧ detectRepoType ["package.json", "tsconfig.json"] [] = RepoType.typescript
    ∧ detectRepoType ["package.json"] [] = RepoType.javascript
    ∧ detectRepoType ["Cargo.toml"] ["target"] = RepoType.rust
    ∧ detectRepoType [] [] = RepoType.generic :=
  ⟨detectRepoType_eq, by decide, by decide, by decide, by decide⟩

/-- Claim C2: for every event and enabled debounce configuration,
`shouldDebounceEvent` suppresses the event and leaves the map untouched
exactly when a prior entry under the key `path + ":" + kind` lies within
the time window, and otherwise records/overwrites the entry with the
current timestamp and passes the event; the suppression window is thereby
measured from the first unsuppressed occurrence. -/
theorem shouldDebounceEvent_spec
    (event : FileChangeEvent) (recentChanges : DebounceMap)
    (config : DebounceFilterConfig) (now : Int)
    (henabled : config.enabled = true) :
    (∀ lastChange,
        mapGet recentChanges (createDebounceKey event) = some lastChange →
          (now - lastChange.timestamp < config.timeWindowMs →
            shouldDebounceEvent event recentChanges config now = (true, recentChanges))
          ∧ (config.timeWindowMs ≤ now - lastChange.timestamp →
            shouldDebounceEvent event recentChanges config now
              = (false, mapSet recentChanges (createDebounceKey event) ⟨now, event⟩)))
    ∧ (mapGet recentChanges (createDebounceKey event) = none →
        shouldDebounceEvent event recentChanges config now
          = (false, mapSet recentChanges (createDebounceKey event) ⟨now, event⟩)) := by
  constructor
  · intro lastChange hlc
    constructor
    · intro hwin
      simp [shouldDebounceEvent, henabled, hlc, hwin]
    · intro hout
      simp [shouldDebounceEvent, henabled, hlc, not_lt.mpr hout]
  · intro hnone
    simp [shouldDebounceEvent, henabled, hnone]

/-- Witness for claim C2: with a 300 ms window, an event at time 0 passes
and is recorded, an identical event at 50 ms is suppressed without updating
the map, and an identical event at 400 ms — past the window measured from
the first occurrence — passes again. -/
theorem shouldDebounceEvent_spec_witness :
    shouldDebounceEvent ⟨"src/a.ts", "modified", "w1"⟩ [] ⟨true, 300⟩ 0
        = (false, mapSet [] (createDebounceKey ⟨"src/a.ts", "modified", "w1"⟩)
            ⟨0, ⟨"src/a.ts", "modified", "w1"⟩⟩)
    ∧ shouldDebounceEvent ⟨"src/a.ts", "modified", "w1"⟩
          (mapSet [] (createDebounceKey ⟨"src/a.ts", "modified", "w1"⟩)
            ⟨0, ⟨"src/a.ts", "modified", "w1"⟩⟩) ⟨true, 300⟩ 50
        = (true, mapSet [] (createDebounceKey ⟨"src/a.ts", "modified", "w1"⟩)
            ⟨0, ⟨"src/a.ts", "modified", "w1"⟩⟩)
    ∧ shouldDebounceEvent ⟨"src/a.ts", "modified", "w1"⟩
          (mapSet [] (createDebounceKey ⟨"src/a.ts", "modified", "w1"⟩)
            ⟨0, ⟨"src/a.ts", "modified", "w1"⟩⟩) ⟨true, 300⟩ 400
        = (false, mapSet
            (mapSet [] (createDebounceKey ⟨"src/a.ts", "modified", "w1"⟩)
              ⟨0, ⟨"src/a.ts", "modified", "w1"⟩⟩)
            (createDebounceKey ⟨"src/a.ts", "modified", "w1"⟩)
            ⟨400, ⟨"src/a.ts", "modified", "w1"⟩⟩) :=
  ⟨(shouldDebounceEvent_spec ⟨"src/a.ts", "modified", "w1"⟩ [] ⟨true, 300⟩ 0 rfl).2
      (by decide),
   ((shouldDebounceEvent_spec ⟨"src/a.ts", "modified", "w1"⟩
        (mapSet [] (createDebounceKey ⟨"src/a.ts", "modified", "w1"⟩)
          ⟨0, ⟨"src/a.ts", "modified", "w1"⟩⟩) ⟨true, 300⟩ 50 rfl).1
      ⟨0, ⟨"src/a.ts", "modified", "w1"⟩⟩ (by decide)).1 (by decide),
   ((shouldDebounceEvent_spec ⟨"src/a.ts", "modified", "w1"⟩
        (mapSet [] (createDebounceKey ⟨"src/a.ts", "modified", "w1"⟩)
          ⟨0, ⟨"src/a.ts", "modified", "w1"⟩⟩) ⟨true, 300⟩ 400 rfl).1
      ⟨0, ⟨"src/a.ts", "modified", "w1"⟩⟩ (by decide)).2 (by decide)⟩

/-- Claim C3: `applyAllFilters` evaluates pattern, directory, event type,
extension and debounce stages in this fixed order, returning false at the
first rejecting stage; the recent-changes map is returned unchanged
whenever one of the first four stages rejects the event, and also whenever
the debounce stage is disabled. -/
theorem applyAllFilters_frame
    (event : FileChangeEvent) (config : FilterConfig)
    (recentChanges : DebounceMap) (now : Int) :
    (matchesIgnoredPattern event.path config.patterns = true →
        applyAllFilters event config recentChanges now = (false, recentChanges))
    ∧ (isInIgnoredDirectory event.path config.directories = true →
        applyAllFilters event config recentChanges now = (false, recentChanges))
    ∧ (isAllowedEventType event.kind config.eventTypes = false →
        applyAllFilters event config recentChanges now = (false, recentChanges))
    ∧ (matchesExtensionFilter event.path config.extensions = false →
        applyAllFilters event config recentChanges now = (false, recentChanges))
    ∧ (config.debounce.enabled = false →
        (applyAllFilters event config recentChanges now).2 = recentChanges) := by
  refine ⟨fun h => ?_, fun h => ?_, fun h => ?_, fun h => ?_, fun h => ?_⟩
  · simp [applyAllFilters, h]
  · unfold applyAllFilters
    split_ifs <;> simp_all
  · unfold applyAllFilters
    split_ifs <;> simp_all
  · unfold applyAllFilters
    split_ifs <;> simp_all
  · unfold applyAllFilters
    split_ifs <;> simp_all [shouldDebounceEvent, h]

/-- Claim C8: when every stage of the configuration is disabled,
`applyAllFilters` passes every event and leaves the recent-changes map
unchanged — a disabled stage is a pass-through, never an implicit deny. -/
theorem applyAllFilters_all_disabled
    (event : FileChangeEvent) (config : FilterConfig)
    (recentChanges : DebounceMap) (now : Int)
    (hp : config.patterns.enabled = false)
    (hd : config.directories.enabled = false)
    (he : config.eventTypes.enabled = false)
    (hx : config.extensions.enabled = false)
    (hb : config.debounce.enabled = false) :
    applyAllFilters event config recentChanges now = (true, recentChanges) := by
  simp [applyAllFilters, matchesIgnoredPattern, isInIgnoredDirectory,
    isAllowedEventType, matchesExtensionFilter, shouldDebounceEvent,
    hp, hd, he, hx, hb]

/-- Witness for claim C8: a concrete event passes a configuration with all
five stages disabled. -/
theorem applyAllFilters_all_disabled_witness :
    applyAllFilters ⟨"src/a.ts", "modified", "w1"⟩
        ⟨⟨false, ["*.tmp"]⟩, ⟨false, ["dist"]⟩, ⟨false, ["created"]⟩,
         ⟨false, [".ts"], ExtensionMode.includeMode⟩, ⟨false, 300⟩, none⟩
        [] 0
      = (true, []) :=
  applyAllFilters_all_disabled ⟨"src/a.ts", "modified", "w1"⟩
    ⟨⟨false, ["*.tmp"]⟩, ⟨false, ["dist"]⟩, ⟨false, ["created"]⟩,
     ⟨false, [".ts"], ExtensionMode.includeMode⟩, ⟨false, 300⟩, none⟩
    [] 0 rfl rfl rfl rfl rfl

/-- Witness for claim C3: an event under `node_modules` is rejected by the
directory stage of the default configuration without touching the map, and
with the default (disabled) debounce stage the map also stays unchanged for
an accepted event. -/
theorem applyAllFilters_frame_witness :
    applyAllFilters ⟨"node_modules/x.ts", "modified", "w1"⟩ DEFAULT_FILTER_CONFIG [] 0
        = (false, [])
    ∧ (applyAllFilters ⟨"src/a.ts", "modified", "w1"⟩ DEFAULT_FILTER_CONFIG [] 0).2 = [] :=
  ⟨(applyAllFilters_frame ⟨"node_modules/x.ts", "modified", "w1"⟩
      DEFAULT_FILTER_CONFIG [] 0).2.1 (by decide),
   (applyAllFilters_frame ⟨"src/a.ts", "modified", "w1"⟩
      DEFAULT_FILTER_CONFIG [] 0).2.2.2.2 rfl⟩

/-- Claim C4: applying a repository type preset overwrites exactly the
stages present in that type's preset, leaves every absent stage equal to
the input configuration's stage, and records the type in `activePreset`;
in particular the `go` preset leaves the debounce stage (hence a customized
`timeWindowMs`) unchanged while overwriting directories and extensions. -/
theorem applyRepoTypePreset_merge (config : FilterConfig) (repoType : RepoType) :
    (applyRepoTypePreset config repoType).patterns
        = (REPO_TYPE_PRESETS repoType).patterns.getD config.patterns
    ∧ (applyRepoTypePreset config repoType).directories
        = (REPO_TYPE_PRESETS repoType).directories.getD config.directories
    ∧ (applyRepoTypePreset config repoType).eventTypes
        = (REPO_TYPE_PRESETS repoType).eventTypes.getD config.eventTypes
    ∧ (applyRepoTypePreset config repoType).extensions
        = (REPO_TYPE_PRESETS repoType).extensions.getD config.extensions
    ∧ (applyRepoTypePreset config repoType).debounce
        = (REPO_TYPE_PRESETS repoType).debounce.getD config.debounce
    ∧ (applyRepoTypePreset config repoType).activePreset = some repoType
    ∧ (applyRepoTypePreset config RepoType.go).debounce = config.debounce
    ∧ (applyRepoTypePreset config RepoType.go).directories
        = ⟨true, ["vendor", "bin", "pkg"]⟩
    ∧ (applyRepoTypePreset config RepoType.go).extensions
        = ⟨true, [".go", ".mod", ".sum", ".proto"], ExtensionMode.includeMode⟩ := by
  cases repoType <;>
    simp [applyRepoTypePreset, REPO_TYPE_PRESETS]

/-- Helper for unfolding the two-step membership test inside
`isInIgnoredDirectory`. -/
theorem if_if_or (P : Prop) [Decidable P] (b : Bool) :
    ((if P then true else if b = true then true else false) = true) ↔ (P ∨ b = true) := by
  by_cases h : P <;> cases b <;> simp [h]

/-- Claim C5: with the directory stage enabled and a non-empty list,
`isInIgnoredDirectory` holds exactly when some configured directory equals
the normalized path or is a strict prefix of it followed by a slash; the
three listed examples evaluate accordingly. -/
theorem isInIgnoredDirectory_spec (filePath : String) (config : DirectoryFilterConfig)
    (henabled : config.enabled = true) (hne : config.ignoredDirectories ≠ []) :
    (isInIgnoredDirectory filePath config = true ↔
        ∃ dir ∈ config.ignoredDirectories,
          normalizePath filePath = normalizePath dir
            ∨ strStartsWith (normalizePath filePath) (normalizePath dir ++ "/") = true)
    ∧ isInIgnoredDirectory "/foo/bar/x.txt" ⟨true, ["/foo/bar"]⟩ = true
    ∧ isInIgnoredDirectory "/foo/bar" ⟨true, ["/foo/bar"]⟩ = true
    ∧ isInIgnoredDirectory "/foo/barbell/x.txt" ⟨true, ["/foo/bar"]⟩ = false := by
  refine ⟨?_, by decide, by decide, by decide⟩
  unfold isInIgnoredDirectory
  rw [henabled]
  have hempty : config.ignoredDirectories.isEmpty = false := by
    cases h : config.ignoredDirectories
    · exact absurd h hne
    · rfl
  simp only [hempty, Bool.not_true, Bool.false_or, Bool.or_false, if_false,
    Bool.false_eq_true, List.any_eq_true, Bool.or_eq_true, beq_iff_eq, if_if_or]

/-- Witness for claim C5: the three examples, by instantiating the main
theorem at the first one. -/
theorem isInIgnoredDirectory_spec_witness :
    isInIgnoredDirectory "/foo/bar/x.txt" ⟨true, ["/foo/bar"]⟩ = true
    ∧ isInIgnoredDirectory "/foo/bar" ⟨true, ["/foo/bar"]⟩ = true
    ∧ isInIgnoredDirectory "/foo/barbell/x.txt" ⟨true, ["/foo/bar"]⟩ = false :=
  (isInIgnoredDirectory_spec "/foo/bar/x.txt" ⟨true, ["/foo/bar"]⟩ rfl
    (by decide)).2

/-- Claim C6: with the pattern stage enabled and a non-empty pattern list,
`matchesIgnoredPattern` holds exactly when the base name after the last
slash is accepted by the anchored regex of some pattern (metacharacters
escaped except `*` and `?`, with `*` as `.*` and `?` as `.`); the two
listed examples evaluate accordingly. -/
theorem matchesIgnoredPattern_spec (filePath : String) (config : PatternFilterConfig)
    (henabled : config.enabled = true) (hne : config.ignoredPatterns ≠ []) :
    (matchesIgnoredPattern filePath config = true ↔
        ∃ pattern ∈ config.ignoredPatterns,
          regexAccepts (globToRegex pattern) (baseName filePath).data = true)
    ∧ matchesIgnoredPattern "app.tmp" ⟨true, ["*.tmp"]⟩ = true
    ∧ matchesIgnoredPattern "app.tmp2" ⟨true, ["*.tmp"]⟩ = false := by
  refine ⟨?_, by decide, by decide⟩
  unfold matchesIgnoredPattern
  rw [henabled]
  have hempty : config.ignoredPatterns.isEmpty = false := by
    cases h : config.ignoredPatterns
    · exact absurd h hne
    · rfl
  simp [hempty, List.any_eq_true]

/-- Witness for claim C6: the two examples, by instantiating the main
theorem at the first one. -/
theorem matchesIgnoredPattern_spec_witness :
    matchesIgnoredPattern "app.tmp" ⟨true, ["*.tmp"]⟩ = true
    ∧ matchesIgnoredPattern "app.tmp2" ⟨true, ["*.tmp"]⟩ = false :=
  (matchesIgnoredPattern_spec "app.tmp" ⟨true, ["*.tmp"]⟩ rfl (by decide)).2

/-- Claim C7: with the extension stage enabled and a non-empty extension
list, a file with empty extension passes exactly in exclude mode, and a
file with an extension passes according to membership of the lower-cased
extension in the watched list — directly in include mode and negated in
exclude mode; the six listed examples evaluate accordingly. -/
theorem matchesExtensionFilter_spec (filePath : String) (config : ExtensionFilterConfig)
    (henabled : config.enabled = true) (hne : config.watchedExtensions ≠ []) :
    (getFileExtension filePath = "" →
        (matchesExtensionFilter filePath config = true ↔
          config.mode = ExtensionMode.excludeMode))
    ∧ (getFileExtension filePath ≠ "" →
        matchesExtensionFilter filePath config
          = (match config.mode with
              | ExtensionMode.includeMode =>
                config.watchedExtensions.contains (getFileExtension filePath)
              | ExtensionMode.excludeMode =>
                !config.watchedExtensions.contains (getFileExtension filePath)))
    ∧ matchesExtensionFilter "a.ts" ⟨true, [".ts"], ExtensionMode.includeMode⟩ = true
    ∧ matchesExtensionFilter "a.js" ⟨true, [".ts"], ExtensionMode.includeMode⟩ = false
    ∧ matchesExtensionFilter "README" ⟨true, [".ts"], ExtensionMode.includeMode⟩ = false
    ∧ matchesExtensionFilter "a.log" ⟨true, [".log"], ExtensionMode.excludeMode⟩ = false
    ∧ matchesExtensionFilter "a.ts" ⟨true, [".log"], ExtensionMode.excludeMode⟩ = true
    ∧ matchesExtensionFilter "README" ⟨true, [".log"], ExtensionMode.excludeMode⟩ = true := by
  have hempty : config.watchedExtensions.isEmpty = false := by
    cases h : config.watchedExtensions
    · exact absurd h hne
    · rfl
  refine ⟨?_, ?_, by decide, by decide, by decide, by decide, by decide, by decide⟩
  · intro hext
    unfold matchesExtensionFilter
    rw [henabled]
    simp only [hempty, hext, show ("" : String).isEmpty = true from rfl]
    cases config.mode <;> simp
  · intro hext
    unfold matchesExtensionFilter
    rw [henabled]
    cases hI : (getFileExtension filePath).isEmpty
    · simp only [hempty, hI]
      simp
    · exact absurd ((String.isEmpty_iff _).mp hI) hext

/-- Witness for claim C7: the six examples, by instantiating the main
theorem at the first one. -/
theorem matchesExtensionFilter_spec_witness :
    matchesExtensionFilter "a.ts" ⟨true, [".ts"], ExtensionMode.includeMode⟩ = true
    ∧ matchesExtensionFilter "a.js" ⟨true, [".ts"], ExtensionMode.includeMode⟩ = false
    ∧ matchesExtensionFilter "README" ⟨true, [".ts"], ExtensionMode.includeMode⟩ = false
    ∧ matchesExtensionFilter "a.log" ⟨true, [".log"], ExtensionMode.excludeMode⟩ = false
    ∧ matchesExtensionFilter "a.ts" ⟨true, [".log"], ExtensionMode.excludeMode⟩ = true
    ∧ matchesExtensionFilter "README" ⟨true, [".log"], ExtensionMode.excludeMode⟩ = true :=
  (matchesExtensionFilter_spec "a.ts" ⟨true, [".ts"], ExtensionMode.includeMode⟩
    rfl (by decide)).2.2

/-- Claim C9: `loadFilterConfig` is a total function (no exception can
propagate): a missing stored value, and a stored value whose parse fails,
both yield the default configuration. -/
theorem loadFilterConfig_total (stored : Option String)
    (parse : String → Except String FilterConfig) :
    (stored = none → loadFilterConfig stored parse = DEFAULT_FILTER_CONFIG)
    ∧ (∀ s msg, stored = some s → parse s = Except.error msg →
        loadFilterConfig stored parse = DEFAULT_FILTER_CONFIG) := by
  constructor
  · intro h
    rw [h]
    rfl
  · intro s msg hs hp
    rw [hs]
    unfold loadFilterConfig
    by_cases hI : s.isEmpty
    · simp [hI]
    · simp [hI, hp]

/-- Witness for claim C9: a missing value and a corrupt value both load as
the default configuration. -/
theorem loadFilterConfig_total_witness :
    loadFilterConfig none (fun _ => Except.error "missing") = DEFAULT_FILTER_CONFIG
    ∧ loadFilterConfig (some "corrupt") (fun _ => Except.error "SyntaxError")
        = DEFAULT_FILTER_CONFIG :=
  ⟨(loadFilterConfig_total none (fun _ => Except.error "missing")).1 rfl,
   (loadFilterConfig_total (some "corrupt") (fun _ => Except.error "SyntaxError")).2
      "corrupt" "SyntaxError" rfl rfl⟩

/-- Claim C10: `toggleFilter` returns the input configuration with exactly
the named stage's `enabled` flag replaced by the given boolean: that
stage's other fields, every other stage, and `activePreset` all keep their
input values (the embedding is pure, so the input itself is unchanged). -/
theorem toggleFilter_spec (config : FilterConfig) (filterType : FilterType)
    (enabled : Bool) :
    toggleFilter config filterType enabled
      = { config with
          patterns := if filterType = FilterType.patterns then
              { config.patterns with enabled := enabled } else config.patterns,
          directories := if filterType = FilterType.directories then
              { config.directories with enabled := enabled } else config.directories,
          eventTypes := if filterType = FilterType.eventTypes then
              { config.eventTypes with enabled := enabled } else config.eventTypes,
          extensions := if filterType = FilterType.extensions then
              { config.extensions with enabled := enabled } else config.extensions,
          debounce := if filterType = FilterType.debounce then
              { config.debounce with enabled := enabled } else config.debounce } := by
  cases filterType <;> simp [toggleFilter]
